import Mathlib

/-!
Shallow embedding of the background activity-monitoring subsystem of the
time-tracker repository (Go), covering:

* `core.InputMonitor` (`src/core/input_monitor.go`): `StartMonitoring`,
  the event-classification loop body, `StopMonitoring`, `ClearData`;
* `core.ScreenshotManager` (screenshot scheduler source file):
  `StartCapture`, `StopCapture`, `randomInterval`;
* `core.ActivityTracker` (activity tracker source file): `StartTracking`,
  `StopTracking`, `trackActivities`, `LogActivity`, `saveCurrentSession`,
  `calculateSessionDuration`, with the sqlite `activities` table modelled
  as an in-memory list of rows and `Database.SaveActivity` as an append;
* `core.TaskManager` (`src/core/task_manager.go`): `AddTask`,
  `StopActiveTask`, `UserStartTask`;
* `services.AuthService.Login` (auth service source file).

Machine integers are modelled as `Int`/`Nat`; Go `time.Time` instants are
modelled as nanosecond counts (`Nat`), matching Go's nanosecond-resolution
monotonic/wall clock; `float64` arithmetic on durations and on random
intervals is modelled exactly over `ℚ` (the quantities involved are far
inside the range where `float64` is faithful); Go's `int(x)` conversion of
a `float64` is truncation toward zero, modelled by `ratTrunc`.
Fallible collaborators (the sqlite write, the remote work-report API, the
OS screenshot primitive, the random draw) are passed in as explicit
parameters, so every operation is a pure function on an explicit state.
-/

namespace TimeTracker

/-- Model of `time.Time.Format(time.RFC3339)` applied to a nanosecond instant,
modelled as an injective rendering of the instant; no claim inspects the
textual format itself, only equality of rendered instants. -/
def fmtTime (t : Nat) : String := toString t

/-- Go `int(x)` applied to a `float64`: truncation toward zero, modelled
exactly on `ℚ`. -/
def ratTrunc (q : ℚ) : Int := if 0 ≤ q then ⌊q⌋ else -⌊-q⌋

/-! ## core.InputMonitor -/

/-- Model of `core.InputEvent` (src/core/input_monitor.go). `Timestamp` is a
nanosecond instant. -/
structure InputEvent where
  eventType : String
  key : String
  position : Int × Int
  button : String
  pressed : Bool
  scroll : Int × Int
  timestamp : Nat
deriving Repr, DecidableEq

/-- Model of `core.InputMonitor` state (src/core/input_monitor.go). The mutex only
serialises access and has no state of its own. -/
structure InputMonitor where
  keystrokes : List InputEvent
  mouseMovements : List InputEvent
  isMonitoring : Bool
deriving Repr, DecidableEq

/-- Model of `core.NewInputMonitor`. -/
def NewInputMonitor : InputMonitor :=
  { keystrokes := [], mouseMovements := [], isMonitoring := false }

/-- Model of `InputMonitor.StartMonitoring`: no-op when already monitoring,
otherwise sets the flag (the spawned subscriber goroutine is modelled by
feeding raw events through `processEvent`). -/
def StartMonitoring (im : InputMonitor) : InputMonitor :=
  if im.isMonitoring then im else { im with isMonitoring := true }

/-- A raw event from the OS input hook (`github.com/robotn/gohook`), as
consumed by the monitoring goroutine's `switch ev.Kind`. -/
inductive HookEvent where
  | keyDown (keychar : Char)
  | keyHold (keychar : Char)
  | mouseDown (button : Nat)
  | mouseWheel (rotation : Int) (amount : Int)
  | otherKind
deriving Repr, DecidableEq

/-- The `hook.MouseMap` lookup chain in the `hook.MouseDown` case:
gohook maps left/right/middle to 1/2/3. -/
def buttonName (b : Nat) : String :=
  if b = 1 then "left" else if b = 2 then "right"
  else if b = 3 then "middle" else "other"

/-- One iteration of the monitoring goroutine's event branch
(src/core/input_monitor.go, the `select` case receiving `ev`): after the
double check of `IsMonitoring`, classify the event and append it. `now`
models `time.Now()`. -/
def processEvent (im : InputMonitor) (ev : HookEvent) (now : Nat) : InputMonitor :=
  if !im.isMonitoring then im
  else
    match ev with
    | .keyDown c | .keyHold c =>
        { im with keystrokes := im.keystrokes ++
            [{ eventType := "press", key := toString c, position := (0, 0),
               button := "", pressed := false, scroll := (0, 0), timestamp := now }] }
    | .mouseDown b =>
        { im with mouseMovements := im.mouseMovements ++
            [{ eventType := "click", key := "", position := (0, 0),
               button := buttonName b, pressed := true, scroll := (0, 0), timestamp := now }] }
    | .mouseWheel rotation amount =>
        let scrollY : Int := if rotation > 0 then -amount else amount
        { im with mouseMovements := im.mouseMovements ++
            [{ eventType := "scroll", key := "", position := (0, 0),
               button := "", pressed := false, scroll := (0, scrollY), timestamp := now }] }
    | .otherKind => im

/-- Model of `InputMonitor.ClearData`. -/
def ClearData (im : InputMonitor) : InputMonitor :=
  { im with keystrokes := [], mouseMovements := [] }

/-- Model of `InputMonitor.StopMonitoring`: returns the updated monitor together
with the `(keyboard_event_count, mouse_event_count)` map it builds; zero
counts and no state change when not monitoring. -/
def StopMonitoring (im : InputMonitor) : InputMonitor × (Nat × Nat) :=
  if !im.isMonitoring then (im, (0, 0))
  else
    (ClearData { im with isMonitoring := false },
     (im.keystrokes.length, im.mouseMovements.length))

/-! ## core.ScreenshotManager -/

/-- Model of `core.ScreenshotManager` state: the configured mean interval in
nanoseconds (a `time.Duration`, modelled on `ℚ` since `randomInterval`
works in `float64`), the active flag, and the stop channel's observable
state (`stopChan == nil` before the first start; closed after a stop).
The `sync.WaitGroup` join has no residual state. -/
structure ScreenshotManager where
  interval : ℚ
  isActive : Bool
  stopChanExists : Bool
  stopChanClosed : Bool
deriving Repr, DecidableEq

/-- Model of `core.NewScreenshotManager`: `interval = intervalSeconds * time.Second`;
`stopChan` is not yet created. -/
def NewScreenshotManager (intervalSeconds : ℚ) : ScreenshotManager :=
  { interval := intervalSeconds * 1000000000, isActive := false,
    stopChanExists := false, stopChanClosed := false }

/-- Model of `ScreenshotManager.StartCapture`: no-op when already active; otherwise
marks active and creates a fresh (open) stop channel, spawning the worker. -/
def StartCapture (sm : ScreenshotManager) : ScreenshotManager :=
  if sm.isActive then sm
  else { sm with isActive := true, stopChanExists := true, stopChanClosed := false }

/-- Model of `ScreenshotManager.StopCapture`: returns unchanged when not active or
the channel is nil; otherwise closes the channel (unless already closed),
clears the active flag, and joins the worker. -/
def StopCapture (sm : ScreenshotManager) : ScreenshotManager :=
  if !sm.isActive || !sm.stopChanExists then sm
  else { sm with stopChanClosed := true, isActive := false }

/-- Model of `ScreenshotManager.randomInterval`: `min + rand.Float64()*(max-min)`
with `min = 0.8 * interval`, `max = 1.2 * interval`; the draw
`r = rand.Float64()` satisfies `0 ≤ r < 1`. -/
def randomInterval (interval : ℚ) (r : ℚ) : ℚ :=
  let lo := 0.8 * interval
  let hi := 1.2 * interval
  lo + r * (hi - lo)

/-! ## core.ActivityTracker and its sqlite-backed activity log -/

/-- Model of `core.Activity` (one tick of the in-memory activity log). -/
structure Activity where
  taskName : String
  timestamp : Nat
deriving Repr, DecidableEq

/-- One row of the sqlite `activities` table as written by
`Database.SaveActivity(task, startTime, endTime, duration, screenshotPath,
keyboardEventCount, mouseEventCount)`. -/
structure ActivityRow where
  task : String
  startTime : String
  endTime : String
  duration : Int
  screenshotPath : String
  keyboardEventCount : Int
  mouseEventCount : Int
deriving Repr, DecidableEq

/-- Model of `core.ActivityTracker` state; the `Database` collaborator is modelled
by the list `store` of rows of the `activities` table (a `SaveActivity`
call appends a row; its possible failure is an explicit parameter of the
operations below). -/
structure ActivityTracker where
  activeTasks : List Activity
  isTracking : Bool
  currentTask : Option String
  startTime : Option Nat
  endTime : Option Nat
  screenshotManager : ScreenshotManager
  inputMonitor : InputMonitor
  store : List ActivityRow
deriving Repr, DecidableEq

/-- Model of `core.NewActivityTracker`: empty tick log, not tracking, a
10-second-interval screenshot manager, a fresh input monitor, and (for the
modelled database) an empty `activities` table. -/
def NewActivityTracker : ActivityTracker :=
  { activeTasks := [], isTracking := false, currentTask := none,
    startTime := none, endTime := none,
    screenshotManager := NewScreenshotManager 10,
    inputMonitor := NewInputMonitor, store := [] }

/-- Model of `ActivityTracker.LogActivity`: append one tick stamped `time.Now()`. -/
def LogActivity (tr : ActivityTracker) (taskName : String) (now : Nat) : ActivityTracker :=
  { tr with activeTasks := tr.activeTasks ++ [{ taskName := taskName, timestamp := now }] }

/-- Model of `ActivityTracker.trackActivities`: log one tick for the current task
when one is set; always returns nil. -/
def trackActivities (tr : ActivityTracker) (now : Nat) : ActivityTracker :=
  match tr.currentTask with
  | some name => LogActivity tr name now
  | none => tr

/-- Model of `ActivityTracker.calculateSessionDuration`: `EndTime.Sub(StartTime).Seconds()`
(a `float64` number of seconds, exact on `ℚ`) when both instants are set,
else `0.0`. -/
def calculateSessionDuration (tr : ActivityTracker) : ℚ :=
  match tr.startTime, tr.endTime with
  | some s, some e => ((e : ℚ) - (s : ℚ)) / 1000000000
  | _, _ => 0

/-- Observable steps of a `StopTracking` run, in program order: one
`persistRow` per `Database.SaveActivity` call, then the worker shutdowns. -/
inductive StopStep where
  | persistRow
  | stopCaptureStep
  | stopMonitoringStep
deriving Repr, DecidableEq

/-- Model of `ActivityTracker.saveCurrentSession`. `capture` is the result of the
final synchronous `captureScreenshot` (`none` when it failed, in which case
the path saved is `""`); `saveOk` is whether the `Database.SaveActivity`
writes succeed (a failing insert writes nothing and aborts the loop).
Returns the updated tracker, whether an error was returned, and the trace
of persistence calls made. Note the source passes literal `0, 0` for the
keyboard and mouse event counts of every row. -/
def saveCurrentSession (tr : ActivityTracker) (capture : Option String) (saveOk : Bool) :
    ActivityTracker × Bool × List StopStep :=
  let duration := ratTrunc (calculateSessionDuration tr)
  let path := match capture with | some p => p | none => ""
  let startStr := match tr.startTime with | some t => fmtTime t | none => ""
  let endStr := match tr.endTime with | some t => fmtTime t | none => ""
  match tr.activeTasks with
  | [] => ({ tr with activeTasks := [] }, false, [])
  | ts =>
    if saveOk then
      let rows := ts.map fun a =>
        ({ task := a.taskName, startTime := startStr, endTime := endStr,
           duration := duration, screenshotPath := path,
           keyboardEventCount := 0, mouseEventCount := 0 } : ActivityRow)
      ({ tr with store := tr.store ++ rows, activeTasks := [] },
       false, ts.map fun _ => StopStep.persistRow)
    else (tr, true, [StopStep.persistRow])

/-- Model of `ActivityTracker.StartTracking`: connect the database (collaborator,
assumed available), raise the tracking flag, record the task and
`StartTime = now`, start both workers, and log one tick. It performs no
check of a previously active session. -/
def StartTracking (tr : ActivityTracker) (taskName : String) (now : Nat) : ActivityTracker :=
  let tr1 := { tr with isTracking := true, currentTask := some taskName,
                       startTime := some now,
                       screenshotManager := StartCapture tr.screenshotManager,
                       inputMonitor := StartMonitoring tr.inputMonitor }
  trackActivities tr1 now

/-- Result of a `StopTracking` run: final tracker state, whether an error
was returned, and the trace of observable steps in program order. -/
structure StopOutcome where
  tracker : ActivityTracker
  errored : Bool
  trace : List StopStep
deriving Repr, DecidableEq

/-- Model of `ActivityTracker.StopTracking`: clear the flag and current task, set
`EndTime = now`, run `trackActivities` (a no-op, the current task having
just been cleared), then `saveCurrentSession`; on a save error return it at
once — only on success are `StopCapture` and `StopMonitoring` reached (the
counts `StopMonitoring` returns are discarded). -/
def StopTracking (tr : ActivityTracker) (now : Nat) (capture : Option String) (saveOk : Bool) :
    StopOutcome :=
  let tr1 := { tr with isTracking := false, currentTask := none, endTime := some now }
  let tr2 := trackActivities tr1 now
  let res := saveCurrentSession tr2 capture saveOk
  if res.2.1 then { tracker := res.1, errored := true, trace := res.2.2 }
  else
    let tr4 := { res.1 with screenshotManager := StopCapture res.1.screenshotManager }
    let imRes := StopMonitoring tr4.inputMonitor
    { tracker := { tr4 with inputMonitor := imRes.1 }, errored := false,
      trace := res.2.2 ++ [StopStep.stopCaptureStep, StopStep.stopMonitoringStep] }

/-! ## core.TaskManager -/

/-- Model of `types.Task` (src/internal/types/types.go), restricted to the fields
the modelled `TaskManager` operations read (`ID`, `Name`); the remaining
fields (`Project`, `Description`, `Status`) are never touched by them. -/
structure Task where
  id : Int
  name : String
deriving Repr, DecidableEq

/-- Model of `types.WorkReport`, restricted to the field the modelled operations
read (`ID`). -/
structure WorkReport where
  id : Int
deriving Repr, DecidableEq

/-- One entry of `tm.taskHistory[task.ID]`: the
`{"start_time", "end_time", "description"}` map appended by
`UserStartTask` (and, without a description, by `SetActiveTask`). -/
structure HistEntry where
  startTime : String
  endTime : Option String
  description : Option String
deriving Repr, DecidableEq

/-- The Go map `tm.taskHistory : map[int][]...`, modelled as an
association list; `histGet` is indexing (zero value `[]` when absent). -/
def histGet : List (Int × List HistEntry) → Int → List HistEntry
  | [], _ => []
  | p :: rest, k => if p.1 = k then p.2 else histGet rest k

/-- Map update `m[k] = v`: replace the binding when present, else add it. -/
def histSet : List (Int × List HistEntry) → Int → List HistEntry → List (Int × List HistEntry)
  | [], k, v => [(k, v)]
  | p :: rest, k, v => if p.1 = k then (k, v) :: rest else p :: histSet rest k v

/-- Model of `core.TaskManager` state (src/core/task_manager.go); the
`taskService` collaborator's replies are explicit parameters of the
operations. -/
structure TaskManager where
  tasks : List Task
  activeTask : Option Task
  taskHistory : List (Int × List HistEntry)
  workReport : Option WorkReport
deriving Repr, DecidableEq

/-- Model of `core.NewTaskManager`. -/
def NewTaskManager : TaskManager :=
  { tasks := [], activeTask := none, taskHistory := [], workReport := none }

/-- Model of `TaskManager.AddTask`: return `(false, nil)` leaving the list alone
when a task with the same ID is present, otherwise append the task,
reset its history slot to `[]`, and return `(true, nil)`. The error
component is the literal `nil` on every path, modelled as `none`. -/
def AddTask (tm : TaskManager) (task : Task) : TaskManager × Bool × Option Unit :=
  if tm.tasks.any fun t => t.id = task.id then (tm, false, none)
  else
    ({ tm with tasks := tm.tasks ++ [task],
               taskHistory := histSet tm.taskHistory task.id [] },
     true, none)

/-- The in-place mutation done by `TaskManager.StopActiveTask` on the
active task's history slice: when it is non-empty and its last entry has
`end_time == nil`, set that entry's `end_time` to the current time. -/
def closeLast (now : String) : List HistEntry → List HistEntry
  | [] => []
  | [e] => [if e.endTime = none then { e with endTime := some now } else e]
  | e :: e2 :: rest => e :: closeLast now (e2 :: rest)

/-- Model of `TaskManager.StopActiveTask`: when a task is active, close the last
open entry of its history (if any) and clear the active task. `now` is
`time.Now()` already rendered. -/
def StopActiveTask (tm : TaskManager) (now : String) : TaskManager :=
  match tm.activeTask with
  | none => tm
  | some t =>
    let history := histGet tm.taskHistory t.id
    let tm1 :=
      if history = [] then tm
      else { tm with taskHistory := histSet tm.taskHistory t.id (closeLast now history) }
    { tm1 with activeTask := none }

/-- Model of `TaskManager.UserStartTask`: stop the currently active task first (if
any), then ask `taskService.StartUserTask` for a work report (`remote` is
its reply: `Except.error ()` for a transport failure, otherwise the
possibly-nil report). On failure the error is returned (prior task already
stopped); on a non-nil report, record it, make `task` active, and append a
fresh open history entry carrying the description. `now` models
`time.Now()` in nanoseconds; the recorded start time is its rendering. -/
def UserStartTask (tm : TaskManager) (task : Task) (description : String) (now : Nat)
    (remote : Except Unit (Option WorkReport)) :
    TaskManager × Bool × Bool :=
  let tm1 := if tm.activeTask ≠ none then StopActiveTask tm (fmtTime now) else tm
  let startTimeStr := fmtTime now
  match remote with
  | .error _ => (tm1, false, true)
  | .ok report =>
    let tm2 := { tm1 with workReport := report }
    match report with
    | some _ =>
      ({ tm2 with activeTask := some task,
                  taskHistory := histSet tm2.taskHistory task.id
                    (histGet tm2.taskHistory task.id ++
                     [{ startTime := startTimeStr, endTime := none,
                        description := some description }]) },
       true, false)
    | none => (tm2, false, false)

/-! ## services.AuthService.Login -/

/-- Model of `auth.User` (the structure `Login` builds from the API response). -/
structure AuthUser where
  id : Int
  username : String
  email : String
  role : String
  token : String
deriving Repr, DecidableEq

/-- Outcome of `AuthService.Login`: the `(*auth.User, error)` pair plus
whether a request was sent to the remote API at all. -/
structure LoginOutcome where
  user : Option AuthUser
  err : Option String
  requestSent : Bool
deriving Repr, DecidableEq

/-- Model of `AuthService.Login` (auth service source file): empty email or
password short-circuits to `(nil, nil)` with no API call; otherwise the
payload is posted and the reply (`api`, the `apiClient.Login` collaborator
result) is converted to a user or the error is propagated. -/
def Login (email password : String) (api : Except String AuthUser) : LoginOutcome :=
  if email = "" ∨ password = "" then { user := none, err := none, requestSent := false }
  else
    match api with
    | .error e => { user := none, err := some e, requestSent := true }
    | .ok u => { user := some u, err := none, requestSent := true }

/-! ## Scenario states used by concrete evaluations -/

/-- The injected raw events of the spec's scenario: three key presses and
one scroll-down wheel event (positive rotation is wheel down). -/
def scenarioEvents : List HookEvent :=
  [.keyDown 'a', .keyDown 'b', .keyDown 'c', .mouseWheel 1 1]

/-- A session on task "Design Doc" started at instant 0 during which the
scenario's four raw input events were observed. -/
def scenarioTracker : ActivityTracker :=
  let t := StartTracking NewActivityTracker "Design Doc" 0
  { t with inputMonitor := scenarioEvents.foldl (fun m e => processEvent m e 10) t.inputMonitor }

/-- A session on task "T" started at instant 100, with its single start
tick logged. -/
def oneTickTracker : ActivityTracker := StartTracking NewActivityTracker "T" 100

/-- A manager whose active task (id 1) has one open history entry, about
to be restarted onto task id 2. -/
def restartDemoManager : TaskManager :=
  { tasks := [], activeTask := some { id := 1, name := "a" },
    taskHistory := [(1, [{ startTime := "s0", endTime := none, description := none }])],
    workReport := none }

/-! ## Association-map lemmas -/

theorem histGet_histSet_self (m : List (Int × List HistEntry)) (k : Int) (v : List HistEntry) :
    histGet (histSet m k v) k = v := by
  induction m with
  | nil => simp [histGet, histSet]
  | cons p rest ih =>
    by_cases hp : p.1 = k
    · simp [histGet, histSet, hp]
    · simp [histGet, histSet, hp, ih]

theorem histGet_histSet_ne (m : List (Int × List HistEntry)) (k k' : Int)
    (v : List HistEntry) (h : k' ≠ k) :
    histGet (histSet m k v) k' = histGet m k' := by
  induction m with
  | nil => simp [histGet, histSet, h, Ne.symm h]
  | cons p rest ih =>
    by_cases hp : p.1 = k
    · simp [histGet, histSet, hp, Ne.symm h]
    · simp [histGet, histSet, hp, ih]

/-! ## Claim theorems -/

/-- C1: the claim says the ActivityRecord persisted by Stop carries the
counts accumulated by the InputObserver (3 keyboard, 1 mouse in the
scenario). Evaluating the code at the scenario's failing input: the
monitor has indeed tallied 3 keyboard and 1 mouse event (as
`StopMonitoring` would report), yet the row persisted by `StopTracking`
carries `keyboardEventCount = 0` and `mouseEventCount = 0` — the source
passes literal zeros and discards `StopMonitoring`'s result. -/
theorem stopTracking_persists_zero_counts_despite_observed_events :
    (StopMonitoring scenarioTracker.inputMonitor).2 = (3, 1) ∧
    (StopTracking scenarioTracker 90000000000 (some "/shots/s.png") true).tracker.store.map
        (fun row => (row.task, row.duration, row.keyboardEventCount, row.mouseEventCount)) =
      [("Design Doc", 90, 0, 0)] := by
  constructor
  · decide
  · norm_num [scenarioTracker, scenarioEvents, StopTracking, StartTracking, saveCurrentSession,
      trackActivities, LogActivity, calculateSessionDuration, NewActivityTracker,
      NewScreenshotManager, NewInputMonitor, StartMonitoring, processEvent, ratTrunc]

/-- C2 counterexample: calling Stop on a fresh tracker (no session ever
active) does not return a `NoActiveSessionError` — `StopTracking` performs
no session-active check and returns success. (The stored log is also
unchanged.) -/
theorem stopTracking_without_session_returns_no_error :
    (StopTracking NewActivityTracker 5 none true).errored = false ∧
    (StopTracking NewActivityTracker 5 none true).tracker.store = [] := by
  norm_num [StopTracking, saveCurrentSession, trackActivities, NewActivityTracker,
    NewScreenshotManager, NewInputMonitor, StopCapture, StopMonitoring]

/-- C2 amended: for every state with no active session and an empty
in-memory tick log (the shape such a state has after construction or a
fully completed stop), Stop returns success — not a `NoActiveSessionError`,
which the code does not define — and performs no persistence write. -/
theorem stopTracking_without_session_no_write (tr : ActivityTracker) (now : Nat)
    (capture : Option String) (saveOk : Bool)
    (_hidle : tr.isTracking = false) (hticks : tr.activeTasks = []) :
    (StopTracking tr now capture saveOk).errored = false ∧
    (StopTracking tr now capture saveOk).tracker.store = tr.store := by
  simp [StopTracking, trackActivities, saveCurrentSession, hticks]

theorem stopTracking_without_session_no_write_witness :
    (NewActivityTracker.isTracking = false ∧ NewActivityTracker.activeTasks = []) ∧
    ((StopTracking NewActivityTracker 7 none false).errored = false ∧
     (StopTracking NewActivityTracker 7 none false).tracker.store = NewActivityTracker.store) :=
  ⟨⟨rfl, rfl⟩, stopTracking_without_session_no_write NewActivityTracker 7 none false rfl rfl⟩

/-- C3: the claim says both workers have ceased before the record is
handed to persistence. Evaluating the code on an active one-tick session:
the observable trace of a successful `StopTracking` run is a persistence
write FOLLOWED by the two worker shutdowns — the hand-off to persistence
happens while both workers are still running. -/
theorem stopTracking_persists_before_worker_shutdown :
    (StopTracking oneTickTracker 200 (some "p.png") true).trace =
      [.persistRow, .stopCaptureStep, .stopMonitoringStep] ∧
    (StopTracking oneTickTracker 200 (some "p.png") true).errored = false := by
  constructor <;>
    norm_num [oneTickTracker, StopTracking, StartTracking, saveCurrentSession,
      trackActivities, LogActivity, NewActivityTracker, NewScreenshotManager, NewInputMonitor,
      StartMonitoring, calculateSessionDuration, ratTrunc]

/-- C4: the claim says a failing storage write is surfaced but worker
shutdown has already happened unconditionally. Evaluating the code on an
active one-tick session whose save fails: the error is surfaced, but
neither `StopCapture` nor `StopMonitoring` was reached — the screenshot
worker is still active and the input monitor still monitoring when
`StopTracking` returns. -/
theorem stopTracking_save_failure_skips_worker_shutdown :
    (StopTracking oneTickTracker 200 (some "p.png") false).errored = true ∧
    (StopTracking oneTickTracker 200 (some "p.png") false).tracker.screenshotManager.isActive
      = true ∧
    (StopTracking oneTickTracker 200 (some "p.png") false).tracker.inputMonitor.isMonitoring
      = true ∧
    (StopTracking oneTickTracker 200 (some "p.png") false).trace = [.persistRow] := by
  norm_num [oneTickTracker, StopTracking, StartTracking, saveCurrentSession,
    trackActivities, LogActivity, NewActivityTracker, NewScreenshotManager, NewInputMonitor,
    StartMonitoring, StartCapture]

/-- C5: for every nonnegative configured mean interval and every random
draw `r` (with `rand.Float64()` guaranteeing `0 ≤ r < 1`), the interval
produced by `randomInterval` lies within the band `[0.8*mean, 1.2*mean]`. -/
theorem randomInterval_within_jitter_band (m r : ℚ) (hm : 0 ≤ m) (h0 : 0 ≤ r) (h1 : r < 1) :
    0.8 * m ≤ randomInterval m r ∧ randomInterval m r ≤ 1.2 * m := by
  unfold randomInterval
  constructor
  · nlinarith
  · nlinarith

theorem randomInterval_within_jitter_band_witness :
    ((0:ℚ) ≤ 10000000000 ∧ (0:ℚ) ≤ 1/2 ∧ (1/2 : ℚ) < 1) ∧
    (0.8 * (10000000000:ℚ) ≤ randomInterval 10000000000 (1/2) ∧
     randomInterval 10000000000 (1/2) ≤ 1.2 * (10000000000:ℚ)) :=
  ⟨⟨by norm_num, by norm_num, by norm_num⟩,
   randomInterval_within_jitter_band 10000000000 (1/2) (by norm_num) (by norm_num) (by norm_num)⟩

/-- C6: `StopCapture` and `StopMonitoring` are idempotent on every
reachable state (reachability gives `isActive → stopChan ≠ nil`): a second
`StopCapture` observes "not running" (the active flag is already down
after the first call) and changes nothing, and `StopMonitoring` on a
non-running monitor returns zero counts and changes nothing — so calling
either twice equals calling it once. -/
theorem stopCapture_stopMonitoring_idempotent (sm : ScreenshotManager) (im : InputMonitor)
    (hr : sm.isActive = true → sm.stopChanExists = true) :
    StopCapture (StopCapture sm) = StopCapture sm ∧
    (StopCapture sm).isActive = false ∧
    (StopMonitoring (StopMonitoring im).1).1 = (StopMonitoring im).1 ∧
    (StopMonitoring (StopMonitoring im).1).2 = (0, 0) ∧
    (im.isMonitoring = false → StopMonitoring im = (im, (0, 0))) := by
  obtain ⟨iv, ia, ie, ic⟩ := sm
  obtain ⟨ks, mm, imon⟩ := im
  simp only at hr
  cases ia <;> cases ie <;> cases imon <;>
    simp_all [StopCapture, StopMonitoring, ClearData]

theorem stopCapture_stopMonitoring_idempotent_witness :
    ((NewScreenshotManager 10).isActive = true → (NewScreenshotManager 10).stopChanExists = true) ∧
    (StopCapture (StopCapture (NewScreenshotManager 10)) = StopCapture (NewScreenshotManager 10) ∧
     (StopCapture (NewScreenshotManager 10)).isActive = false ∧
     (StopMonitoring (StopMonitoring NewInputMonitor).1).1 = (StopMonitoring NewInputMonitor).1 ∧
     (StopMonitoring (StopMonitoring NewInputMonitor).1).2 = (0, 0) ∧
     (NewInputMonitor.isMonitoring = false → StopMonitoring NewInputMonitor
        = (NewInputMonitor, (0, 0)))) :=
  ⟨fun h => absurd h (by simp [NewScreenshotManager]),
   stopCapture_stopMonitoring_idempotent (NewScreenshotManager 10) NewInputMonitor
     (fun h => absurd h (by simp [NewScreenshotManager]))⟩

/-- C7 counterexample: a session started at instant 0 and stopped at
instant 1500000000 ns (1.5 s later) persists `durationSeconds = 1`, which
is not the elapsed time in seconds (1.5): the code truncates the
fractional second. -/
theorem persisted_duration_fractional_second_counterexample :
    (StopTracking (StartTracking NewActivityTracker "T" 0) 1500000000
        (some "s.png") true).tracker.store.map (fun r => r.duration) = [1] ∧
    ((1:ℚ) ≠ ((1500000000:ℚ) - 0) / 1000000000) := by
  constructor
  · norm_num [StopTracking, StartTracking, saveCurrentSession, trackActivities, LogActivity,
      calculateSessionDuration, NewActivityTracker, NewScreenshotManager, NewInputMonitor,
      StartMonitoring, ratTrunc]
  · norm_num

/-- C7 amended: for every session started at `t0` and stopped at `t1`
(nanosecond instants, `t0 ≤ t1`), the persisted `durationSeconds` equals
the elapsed time truncated to whole seconds, `(t1 - t0) / 10⁹` in integer
division; it equals `t1 - t0` in seconds exactly whenever the elapsed time
is a whole number of seconds. -/
theorem persisted_duration_is_truncated_elapsed_seconds (t0 t1 : Nat) (name path : String)
    (h : t0 ≤ t1) :
    ((StopTracking (StartTracking NewActivityTracker name t0) t1 (some path) true).tracker.store.map
        fun r => r.duration) = [(((t1 - t0) / 1000000000 : ℕ) : ℤ)] ∧
    (1000000000 ∣ (t1 - t0) →
      ((((t1 - t0) / 1000000000 : ℕ) : ℚ) = ((t1 : ℚ) - (t0 : ℚ)) / 1000000000)) := by
  have hsub : ((t1 : ℚ) - (t0 : ℚ)) = (((t1 - t0 : ℕ)) : ℚ) := by
    rw [Nat.cast_sub h]
  constructor
  · have hq : (0:ℚ) ≤ ((t1 : ℚ) - (t0 : ℚ)) / 1000000000 := by
      apply div_nonneg _ (by norm_num)
      simpa using (Nat.cast_le (α := ℚ)).2 h
    simp only [StopTracking, StartTracking, trackActivities, LogActivity, saveCurrentSession,
      calculateSessionDuration, NewActivityTracker, NewScreenshotManager, NewInputMonitor,
      StartMonitoring, ratTrunc]
    norm_num [hq]
    rw [hsub]
    exact_mod_cast Rat.floor_natCast_div_natCast (t1 - t0) 1000000000
  · intro hdvd
    rw [Nat.cast_div hdvd (by norm_num), hsub]
    norm_num

theorem persisted_duration_is_truncated_elapsed_seconds_witness :
    ((0:ℕ) ≤ 90000000000) ∧
    (((StopTracking (StartTracking NewActivityTracker "Design Doc" 0) 90000000000
          (some "s.png") true).tracker.store.map fun r => r.duration) =
        [(((90000000000 - 0) / 1000000000 : ℕ) : ℤ)] ∧
     (1000000000 ∣ (90000000000 - 0) →
       ((((90000000000 - 0) / 1000000000 : ℕ) : ℚ)
          = ((90000000000 : ℚ) - (0 : ℚ)) / 1000000000))) :=
  ⟨Nat.zero_le _,
   persisted_duration_is_truncated_elapsed_seconds 0 90000000000 "Design Doc" "s.png"
     (Nat.zero_le _)⟩

/-- C8 counterexample: starting "B" while session "A" is active does not
stop the prior session: the prior session's tick is still in the live tick
log, nothing was persisted at the restart, and when the combined session
is eventually stopped the persisted record for session A's tick carries
session B's start time — two sessions' data mixed in one record. -/
theorem startTracking_mixes_prior_session_data :
    (StartTracking (StartTracking NewActivityTracker "A" 100) "B" 200).activeTasks =
      [{ taskName := "A", timestamp := 100 }, { taskName := "B", timestamp := 200 }] ∧
    (StartTracking (StartTracking NewActivityTracker "A" 100) "B" 200).store = [] ∧
    (StopTracking (StartTracking (StartTracking NewActivityTracker "A" 100) "B" 200) 300
        (some "p") true).tracker.store.map (fun r => (r.task, r.startTime)) =
      [("A", fmtTime 200), ("B", fmtTime 200)] := by
  refine ⟨by decide, by decide, ?_⟩
  norm_num [StopTracking, StartTracking, saveCurrentSession, trackActivities, LogActivity,
    calculateSessionDuration, NewActivityTracker, NewScreenshotManager, NewInputMonitor,
    StartMonitoring, ratTrunc]

/-- C8 amended: the safe-restart policy lives in `TaskManager.UserStartTask`,
not in `ActivityTracker.StartTracking`: for every manager state with an
active task `t0`, starting a different task with a successful remote reply
first stops `t0` — closing the last open entry of its history — and only
then records the new task as active with a fresh open history entry, so
the two tasks' bookkeeping stays separate. -/
theorem userStartTask_stops_prior_task_first (tm : TaskManager) (t0 task : Task)
    (description : String) (now : Nat) (wr : WorkReport)
    (hactive : tm.activeTask = some t0) (hne : t0.id ≠ task.id) :
    (UserStartTask tm task description now (.ok (some wr))).2.1 = true ∧
    (UserStartTask tm task description now (.ok (some wr))).1.activeTask = some task ∧
    histGet (UserStartTask tm task description now (.ok (some wr))).1.taskHistory t0.id =
      closeLast (fmtTime now) (histGet tm.taskHistory t0.id) ∧
    histGet (UserStartTask tm task description now (.ok (some wr))).1.taskHistory task.id =
      histGet tm.taskHistory task.id ++
        [{ startTime := fmtTime now, endTime := none, description := some description }] := by
  unfold UserStartTask StopActiveTask
  rw [hactive]
  by_cases hh : histGet tm.taskHistory t0.id = []
  · simp [hh, closeLast, histGet_histSet_self, histGet_histSet_ne _ _ _ _ hne]
  · simp [hh, histGet_histSet_self, histGet_histSet_ne _ _ _ _ hne,
      histGet_histSet_ne _ _ _ _ (Ne.symm hne)]

theorem userStartTask_stops_prior_task_first_witness :
    (restartDemoManager.activeTask = some { id := 1, name := "a" } ∧ (1 : ℤ) ≠ 2) ∧
    ((UserStartTask restartDemoManager { id := 2, name := "b" } "d" 7
        (.ok (some { id := 5 }))).2.1 = true ∧
     (UserStartTask restartDemoManager { id := 2, name := "b" } "d" 7
        (.ok (some { id := 5 }))).1.activeTask = some { id := 2, name := "b" } ∧
     histGet (UserStartTask restartDemoManager { id := 2, name := "b" } "d" 7
        (.ok (some { id := 5 }))).1.taskHistory 1 =
       closeLast (fmtTime 7) (histGet restartDemoManager.taskHistory 1) ∧
     histGet (UserStartTask restartDemoManager { id := 2, name := "b" } "d" 7
        (.ok (some { id := 5 }))).1.taskHistory 2 =
       histGet restartDemoManager.taskHistory 2 ++
         [{ startTime := fmtTime 7, endTime := none, description := some "d" }]) :=
  ⟨⟨rfl, by decide⟩,
   userStartTask_stops_prior_task_first restartDemoManager { id := 1, name := "a" }
     { id := 2, name := "b" } "d" 7 { id := 5 } rfl (by decide)⟩

/-- C9: a Login call with an empty email or an empty password returns a
nil user and a nil error, and sends no request to the remote API. -/
theorem login_blank_credentials_no_request (email password : String)
    (api : Except String AuthUser) (h : email = "" ∨ password = "") :
    Login email password api = { user := none, err := none, requestSent := false } := by
  unfold Login
  rw [if_pos h]

theorem login_blank_credentials_no_request_witness :
    ("" = "" ∨ "pw" = "") ∧
    Login "" "pw" (.error "boom")
      = { user := none, err := none, requestSent := false } :=
  ⟨Or.inl rfl, login_blank_credentials_no_request "" "pw" (.error "boom") (Or.inl rfl)⟩

/-- C10: AddTask preserves pairwise-distinct task IDs: on a list with
distinct IDs it returns `(false, nil)` and leaves the list unchanged when
the ID is already present, otherwise appends the task and returns
`(true, nil)`; in both cases the resulting IDs are pairwise distinct. -/
theorem addTask_preserves_distinct_ids (tm : TaskManager) (task : Task)
    (h : tm.tasks.Pairwise fun a b => a.id ≠ b.id) :
    ((tm.tasks.any fun t => t.id = task.id) = true → AddTask tm task = (tm, false, none)) ∧
    ((tm.tasks.any fun t => t.id = task.id) = false →
       (AddTask tm task).1.tasks = tm.tasks ++ [task] ∧ (AddTask tm task).2 = (true, none)) ∧
    ((AddTask tm task).1.tasks.Pairwise fun a b => a.id ≠ b.id) := by
  by_cases hc : (tm.tasks.any fun t => t.id = task.id) = true
  · refine ⟨fun _ => by simp [AddTask, hc], fun hf => absurd hc (by simp [hf]), ?_⟩
    simp [AddTask, hc, h]
  · have hc' : (tm.tasks.any fun t => t.id = task.id) = false := by
      simpa using hc
    have hall : ∀ a ∈ tm.tasks, a.id ≠ task.id := by
      intro a ha
      have := List.any_eq_false.mp hc' a ha
      simpa using this
    refine ⟨fun ht => absurd ht hc, fun _ => ⟨by simp [AddTask, hc'], by simp [AddTask, hc']⟩, ?_⟩
    simp only [AddTask, hc', Bool.false_eq_true, if_false]
    rw [List.pairwise_append]
    refine ⟨h, List.pairwise_singleton _ _, ?_⟩
    intro a ha b hb
    simp only [List.mem_singleton] at hb
    subst hb
    exact hall a ha

theorem addTask_preserves_distinct_ids_witness :
    (NewTaskManager.tasks.Pairwise fun a b => a.id ≠ b.id) ∧
    (((NewTaskManager.tasks.any fun t => t.id = ({ id := 1, name := "t" } : Task).id) = true →
        AddTask NewTaskManager { id := 1, name := "t" } = (NewTaskManager, false, none)) ∧
     ((NewTaskManager.tasks.any fun t => t.id = ({ id := 1, name := "t" } : Task).id) = false →
        (AddTask NewTaskManager { id := 1, name := "t" }).1.tasks
            = NewTaskManager.tasks ++ [{ id := 1, name := "t" }] ∧
        (AddTask NewTaskManager { id := 1, name := "t" }).2 = (true, none)) ∧
     ((AddTask NewTaskManager { id := 1, name := "t" }).1.tasks.Pairwise
        fun a b => a.id ≠ b.id)) :=
  ⟨List.Pairwise.nil,
   addTask_preserves_distinct_ids NewTaskManager { id := 1, name := "t" } List.Pairwise.nil⟩

end TimeTracker
